import Mathlib

/-!
Shallow embedding of the `sechat` chat-client library (files `sechat/events.py`,
`sechat/room.py`, `sechat/errors.py`) used to check the repository's
specification.  Python values delivered by the JSON transport are modelled by
`Sechat.JVal`; pydantic validation, the rate-limited request gateway, the event
dispatcher loop, and the action methods are modelled as pure Lean functions
over explicit server-response traces.
-/

namespace Sechat

/-- A JSON value as decoded by the Python client (`dict`s keep insertion order,
modelled as association lists). -/
inductive JVal where
  | null : JVal
  | bool (b : Bool) : JVal
  | int (n : Int) : JVal
  | str (s : String) : JVal
  | arr (xs : List JVal) : JVal
  | obj (fields : List (String × JVal)) : JVal

/-- A raw event payload: the field map of a JSON object (a Python `dict`). -/
abbrev Payload := List (String × JVal)

/-- Lookup `d.get(name)` on a field map: the value of the first binding of `name`. -/
def getField (p : Payload) (name : String) : Option JVal :=
  (p.find? (fun kv => kv.fst == name)).map (fun kv => kv.snd)

/-! ### events.py: the event model -/

/-- The integer values of the `EventType` enum (`events.py`, lines 40-64). -/
def eventTypeValues : List Int :=
  [1, 2, 3, 4, 5, 6, 7, 8, 9, 10, 11, 12, 13, 14, 15, 16, 17,
   18, 19, 20, 21, 22, 29, 30, 34]

/-- The five `event_type` tags carried by the discriminated union `Events`
(`MessagePosted = 1`, `MessageEdited = 2`, `UserMentioned = 8`,
`MessageDeleted = 10`, `MessageReply = 18`). -/
def recognizedTags : List Int := [1, 2, 8, 10, 18]

/-- The fields of `BaseMessageEvent` (which includes the inherited `Event.id`
and `RoomEvent.room_id` / `room_name` fields), `events.py` lines 67-115. -/
structure BaseMessageFields where
  id : Int
  room_id : Int
  room_name : String
  message_id : Int
  user_id : Int
  user_name : String
  parent_id : Option Int
  show_parent : Option Bool
  target_user_id : Option Int
  message_stars : Int
  message_owner_stars : Int
  message_edits : Int

/-- A successfully validated event: one of the five concrete models of the
discriminated union `Events`, or `UnknownEvent` (`extra="allow"`: `extras`
holds every payload field other than `id` and `event_type`, verbatim). -/
inductive DecodedEvent where
  | messageEvent (fields : BaseMessageFields) (content : String)
  | editEvent (fields : BaseMessageFields) (content : String)
  | mentionEvent (fields : BaseMessageFields) (content : String)
  | deleteEvent (fields : BaseMessageFields)
  | replyEvent (fields : BaseMessageFields) (content : String)
  | unknownEvent (id : Int) (event_type : Int) (extras : Payload)

/-- Validation of a required `int` field.  (pydantic's lax numeric-string
coercion is not exercised by any payload considered here and is not
modelled.) -/
def vInt : Option JVal → Option Int
  | some (.int n) => some n
  | _ => none

/-- Validation of a required `str` field. -/
def vStr : Option JVal → Option String
  | some (.str s) => some s
  | _ => none

/-- Validation of an `Optional[int] = None` field: absent or `null` takes the
default `None`. -/
def vOptInt : Option JVal → Option (Option Int)
  | none => some none
  | some .null => some none
  | some (.int n) => some (some n)
  | _ => none

/-- Validation of an `Optional[bool] = None` field. -/
def vOptBool : Option JVal → Option (Option Bool)
  | none => some none
  | some .null => some none
  | some (.bool b) => some (some b)
  | _ => none

/-- Validation of an `int = d` field with default `d`. -/
def vIntDefault (d : Int) : Option JVal → Option Int
  | none => some d
  | some (.int n) => some n
  | _ => none

/-- Validate the `BaseMessageEvent` field schema against a payload
(`events.py` lines 67-115). -/
def validateBase (p : Payload) : Option BaseMessageFields := do
  let id ← vInt (getField p "id")
  let room_id ← vInt (getField p "room_id")
  let room_name ← vStr (getField p "room_name")
  let message_id ← vInt (getField p "message_id")
  let user_id ← vInt (getField p "user_id")
  let user_name ← vStr (getField p "user_name")
  let parent_id ← vOptInt (getField p "parent_id")
  let show_parent ← vOptBool (getField p "show_parent")
  let target_user_id ← vOptInt (getField p "target_user_id")
  let message_stars ← vIntDefault 0 (getField p "message_stars")
  let message_owner_stars ← vIntDefault 0 (getField p "message_owner_stars")
  let message_edits ← vIntDefault 0 (getField p "message_edits")
  some { id, room_id, room_name, message_id, user_id, user_name,
         parent_id, show_parent, target_user_id,
         message_stars, message_owner_stars, message_edits }

/-- Validate a payload against the concrete model selected by a recognized
discriminator tag `t` (the five members of `Events`, `events.py` lines
117-149).  Extra payload fields are ignored by these models (pydantic's
default `extra="ignore"`). -/
def validateKnown (t : Int) (p : Payload) : Option DecodedEvent :=
  if t = 1 then
    match validateBase p, vStr (getField p "content") with
    | some b, some c => some (.messageEvent b c)
    | _, _ => none
  else if t = 2 then
    match validateBase p, vStr (getField p "content") with
    | some b, some c => some (.editEvent b c)
    | _, _ => none
  else if t = 8 then
    match validateBase p, vStr (getField p "content") with
    | some b, some c => some (.mentionEvent b c)
    | _, _ => none
  else if t = 10 then
    match validateBase p with
    | some b => some (.deleteEvent b)
    | none => none
  else if t = 18 then
    match validateBase p, vStr (getField p "content") with
    | some b, some c => some (.replyEvent b c)
    | _, _ => none
  else none

/-- Validate a payload against `UnknownEvent` (`events.py` lines 152-163):
`id : int` is required, `event_type : EventType` must be a member of the
`EventType` enum, and every other field is kept verbatim
(`model_config = ConfigDict(extra="allow")`). -/
def validateUnknown (p : Payload) : Option DecodedEvent :=
  match vInt (getField p "id"), vInt (getField p "event_type") with
  | some i, some t =>
    if eventTypeValues.contains t then
      some (.unknownEvent i t
        (p.filter (fun kv => !(kv.fst == "id") && !(kv.fst == "event_type"))))
    else none
  | _, _ => none

/-- A pydantic `ValidationError`, carrying the offending payload. -/
structure PydValidationError where
  payload : Payload

/-- The discriminated-union member `Annotated[Events,
Field(discriminator="event_type")]` of the adapter: it applies only when the
payload carries an integer `event_type` equal to one of the five recognized
tags, and then validates the selected model. -/
def taggedValidate (p : Payload) : Option DecodedEvent :=
  match getField p "event_type" with
  | some (.int t) => if recognizedTags.contains t then validateKnown t p else none
  | _ => none

/-- Decode operation `EventAdapter.validate_python` (`events.py` lines
166-169): the smart
union of the discriminated union `Events` (discriminator `event_type`) with
`UnknownEvent`.  A payload whose integer tag is one of the five recognized
values and which satisfies the selected model decodes to that model;
otherwise the `UnknownEvent` member is tried; if both members fail, a
`ValidationError` is raised. -/
def validatePython (p : Payload) : Except PydValidationError DecodedEvent :=
  match taggedValidate p with
  | some e => .ok e
  | none =>
    match validateUnknown p with
    | some e => .ok e
    | none => .error ⟨p⟩

/-! ### room.py: the rate-limited request gateway -/

/-- An HTTP response as seen by `Room._request`: status code, reason phrase,
and response body text. -/
structure HttpResponse where
  status : Nat
  reason : String
  body : String

/-- The exceptions of `errors.py` that `Room._request` can raise.
`RatelimitError` carries `retry_after`; `OperationFailedError` carries its
message and the optional payload attached as a note. -/
inductive ChatError where
  | ratelimitError (retry_after : Nat)
  | operationFailedError (message : String) (payload : Option JVal)

/-- Strip a literal character sequence from the front of a character list,
returning the remainder on a match. -/
def dropLiteral : List Char → List Char → Option (List Char)
  | [], cs => some cs
  | _ :: _, [] => none
  | p :: ps, c :: cs => if c = p then dropLiteral ps cs else none

/-- Value of `int(...)` on a run of decimal digit characters. -/
def digitsToNat (ds : List Char) : Nat :=
  ds.foldl (fun n c => 10 * n + (c.toNat - 48)) 0

/-- Matching `BACKOFF_RESPONSE.fullmatch` (`room.py` line 22): the whole body
must read
`You can perform this action again in <digits> second(s).`; on a match the
digit group is parsed as the delay.  (The regex `\d` also admits non-ASCII
decimal digits, which never occur in these bodies and are not modelled.) -/
def parseBackoff (s : String) : Option Nat :=
  match dropLiteral "You can perform this action again in ".data s.data with
  | none => none
  | some rest =>
    let digits := rest.takeWhile Char.isDigit
    let tail := rest.drop digits.length
    if !digits.isEmpty && (tail == " second.".data || tail == " seconds.".data)
    then some (digitsToNat digits)
    else none

/-- The message of the `OperationFailedError` raised on a non-ok status
(`room.py` line 195). -/
def nonOkMessage (status : Nat) (reason : String) : String :=
  "Got non-ok status code " ++ toString status ++ " (" ++ reason ++ ")"

/-- The body of `Room._request` (`room.py` lines 180-197) classifying one
server response, before the `backoff` decorator is applied: 409 raises a
`RatelimitError` (delay parsed from the body, defaulting to 1 on a parse
failure), 200 returns the body, anything else raises
`OperationFailedError`. -/
def requestOnce (resp : HttpResponse) : Except ChatError String :=
  if resp.status = 409 then
    match parseBackoff resp.body with
    | none => .error (.ratelimitError 1)
    | some n => .error (.ratelimitError n)
  else if resp.status = 200 then .ok resp.body
  else
    .error (.operationFailedError (nonOkMessage resp.status resp.reason)
      (some (.str resp.body)))

/-- Merge `data | {"fkey": self._fkey}` (`room.py` line 182): the form actually
posted; the `fkey` entry overrides any caller-supplied binding. -/
def mergeFkey (data : List (String × String)) (fkey : String) :
    List (String × String) :=
  data.filter (fun kv => !(kv.fst == "fkey")) ++ [("fkey", fkey)]

/-- The observable behaviour of one `Room._request` call: the POSTs issued
(endpoint and form, one per attempt), the sleeps performed by the `backoff`
decorator, and the final outcome (`none` when the supplied response trace is
exhausted while the gateway is still retrying). -/
structure RequestResult where
  issued : List (String × List (String × String))
  sleeps : List Nat
  outcome : Option (Except ChatError String)

/-- The `@on_exception(runtime, RatelimitError, value=lambda e:
e.retry_after, jitter=None)` retry loop around `Room._request` (`room.py`
line 179): with no `max_tries` the decorator re-invokes the call with the
same arguments after sleeping exactly `retry_after` (no jitter) every time a
`RatelimitError` is raised; any other outcome is final.  The list of
responses is the trace of successive server answers to the retried POST. -/
def requestLoop (url : String) (form : List (String × String)) :
    List HttpResponse → RequestResult
  | [] => ⟨[], [], none⟩
  | r :: rest =>
    match requestOnce r with
    | .error (.ratelimitError n) =>
      let k := requestLoop url form rest
      ⟨(url, form) :: k.issued, n :: k.sleeps, k.outcome⟩
    | out => ⟨[(url, form)], [], some out⟩

/-- Gateway call `Room._request` (`room.py` lines 179-197), decorator
included. -/
def request (fkey url : String) (data : List (String × String))
    (trace : List HttpResponse) : RequestResult :=
  requestLoop url (mergeFkey data fkey) trace

/-- Outcome of `Room._json_request`: the parsed JSON body. -/
structure JsonRequestResult where
  issued : List (String × List (String × String))
  sleeps : List Nat
  outcome : Option (Except ChatError JVal)

/-- Wrapper `Room._json_request` (`room.py` lines 199-204): run `_request`,
then
decode the body with `json.loads` (modelled by the `parse` argument); a
decode failure raises `OperationFailedError("Failed to decode response",
response)`. -/
def jsonRequest (fkey url : String) (data : List (String × String))
    (parse : String → Option JVal) (trace : List HttpResponse) :
    JsonRequestResult :=
  let r := request fkey url data trace
  ⟨r.issued, r.sleeps, r.outcome.map (fun out =>
    match out with
    | .ok text =>
      match parse text with
      | some j => .ok j
      | none => .error (.operationFailedError "Failed to decode response"
          (some (.str text)))
    | .error e => .error e)⟩

/-! ### room.py: the event dispatcher loop -/

/-- The error that escapes one iteration of the dispatch loop in
`Room.events` (`room.py` lines 162-177): either the re-raised
`ValidationError` (annotated with the offending payload), or an exception
propagating out of the awaited acknowledgment `_request`. -/
inductive DispatchError where
  | validationError (payload : Payload)
  | ackError (e : ChatError)

/-- Test `isinstance(event, (MentionEvent, ReplyEvent))` (`room.py` line 173):
the `message_id` to acknowledge, when the event is a mention or reply. -/
def ackTarget : DecodedEvent → Option Int
  | .mentionEvent b _ => some b.message_id
  | .replyEvent b _ => some b.message_id
  | _ => none

/-- The `for event_data in events` loop of `Room.events` (`room.py` lines
162-177) over one batch: each payload is decoded with
`EventAdapter.validate_python`; a `ValidationError` is annotated and
re-raised; a mention or reply is acknowledged through the gateway (`ack`
models that `_request` call) before the event is yielded.  Returns the
events yielded, in order, and the error that aborted the loop, if any. -/
def processBatch (ack : Int → Except ChatError String) :
    List Payload → List DecodedEvent × Option DispatchError
  | [] => ([], none)
  | p :: rest =>
    match validatePython p with
    | .error _ => ([], some (.validationError p))
    | .ok e =>
      match ackTarget e with
      | some m =>
        match ack m with
        | .error err => ([], some (.ackError err))
        | .ok _ =>
          let k := processBatch ack rest
          (e :: k.fst, k.snd)
      | none =>
        let k := processBatch ack rest
        (e :: k.fst, k.snd)

/-! ### room.py: socket-URL acquisition -/

/-- The result of one `session.post("/ws-auth", ...)` attempt: either a
transport-level connection error raised by the session, or a server response
carrying a status and the `url` field of its JSON body. -/
inductive FetchOutcome where
  | connError
  | response (status : Nat) (url : String)

/-- The exceptions that can escape `Room._socket_urls`: the transport error
itself, or the `ClientResponseError` raised by `raise_for_status()` on a 4xx
or 5xx status. -/
inductive SocketUrlError where
  | clientConnectionError
  | httpStatusError (status : Nat)

/-- One iteration of `Room._socket_urls` (`room.py` lines 109-116): POST to
`/ws-auth`; a connection error propagates, `raise_for_status()` raises on a
status of 400 or above, and otherwise the JSON body's `url` gains the
freshness query parameter `l=<current time>` and is yielded. -/
def socketUrlFetch (now : Nat) : FetchOutcome → Except SocketUrlError String
  | .connError => .error .clientConnectionError
  | .response status url =>
    if 400 ≤ status then .error (.httpStatusError status)
    else .ok (url ++ "?l=" ++ toString now)

/-- The `Room._socket_urls` generator run against a finite trace of fetch
outcomes (each paired with the current time): the URLs yielded in order, or
the first error, which propagates to the consumer (`Room.events` iterates
the generator with no surrounding handler). -/
def socketUrls : List (Nat × FetchOutcome) → Except SocketUrlError (List String)
  | [] => .ok []
  | (now, f) :: rest =>
    match socketUrlFetch now f with
    | .error e => .error e
    | .ok u =>
      match socketUrls rest with
      | .error e => .error e
      | .ok us => .ok (u :: us)

/-! ### room.py: action methods (`send`, `bookmark`) -/

/-- The Python exceptions that can escape the action methods. -/
inductive PyError where
  | valueError (msg : String)
  | chat (e : ChatError)
  | keyError (key : String)
  | typeError

/-- Observable behaviour of `Room.send`. -/
structure SendResult where
  issued : List (String × List (String × String))
  sleeps : List Nat
  outcome : Option (Except PyError JVal)

/-- Action `Room.send` (`room.py` lines 210-227): an empty message raises
`ValueError` before any request is made; otherwise a `reply_to` id prefixes
the message with `:<id> `, the message is POSTed to
`/chats/<room_id>/messages/new`, and the `"id"` entry of the JSON response
is returned (a missing key raises `KeyError`; a non-object response raises a
`TypeError` on subscripting). -/
def send (fkey : String) (room_id : Int) (message : String)
    (reply_to : Option Int) (parse : String → Option JVal)
    (trace : List HttpResponse) : SendResult :=
  if message.length = 0 then
    ⟨[], [], some (.error (.valueError "Cannot send an empty message!"))⟩
  else
    let message :=
      match reply_to with
      | some r => ":" ++ toString r ++ " " ++ message
      | none => message
    let j := jsonRequest fkey ("/chats/" ++ toString room_id ++ "/messages/new")
      [("text", message)] parse trace
    ⟨j.issued, j.sleeps, j.outcome.map (fun out =>
      match out with
      | .error e => .error (.chat e)
      | .ok (.obj fields) =>
        match getField fields "id" with
        | some v => .ok v
        | none => .error (.keyError "id")
      | .ok _ => .error .typeError)⟩

/-- Python truthiness of a JSON value, as tested by
`if not (... and result.get("ok", False))`. -/
def pyTruthy : JVal → Bool
  | .null => false
  | .bool b => b
  | .int n => !(n == 0)
  | .str s => !(s == "")
  | .arr xs => !xs.isEmpty
  | .obj fs => !fs.isEmpty

/-- Test `isinstance(result, dict) and result.get("ok", False)` (`room.py`
line
333). -/
def bookmarkOk : JVal → Bool
  | .obj fields =>
    match getField fields "ok" with
    | some v => pyTruthy v
    | none => false
  | _ => false

/-- Lowercasing `c.lower()` of one character.  Python's `str.lower` is
Unicode-aware;
this embedding covers the ASCII plane, which is exact for every input
considered here. -/
def pyLower (c : Char) : Char := c.toLower

/-- Test `c.isalnum()` on one character, on the ASCII plane. -/
def pyIsAlnum (c : Char) : Bool := c.isAlphanum

/-- The slug returned by `Room.bookmark` (`room.py` lines 335-337):
`"".join(filter(lambda char: char.isalnum(), title.lower().replace(" ",
"-")))` — lowercase the title, replace each space with a dash, then keep
only the alphanumeric characters. -/
def bookmarkSlug (title : String) : String :=
  String.mk ((((title.data.map pyLower).map
    (fun c => if c = ' ' then '-' else c)).filter pyIsAlnum))

/-- Observable behaviour of `Room.bookmark`. -/
structure BookmarkResult where
  issued : List (String × List (String × String))
  sleeps : List Nat
  outcome : Option (Except PyError String)

/-- Action `Room.bookmark` (`room.py` lines 311-337): POST the bookmark
payload to
`/conversation/new`; unless the JSON response is an object whose `"ok"`
entry is truthy, raise `OperationFailedError("Failed to create bookmark",
result)`; on success return the slug computed from the title.  (The form
values are rendered as the strings aiohttp form-encodes them to.) -/
def bookmark (fkey : String) (room_id start_message end_message : Int)
    (title : String) (parse : String → Option JVal)
    (trace : List HttpResponse) : BookmarkResult :=
  let payload := [("roomId", toString room_id),
                  ("firstMessageId", toString start_message),
                  ("lastMessageId", toString end_message),
                  ("title", title)]
  let j := jsonRequest fkey "/conversation/new" payload parse trace
  ⟨j.issued, j.sleeps, j.outcome.map (fun out =>
    match out with
    | .error e => .error (.chat e)
    | .ok result =>
      if bookmarkOk result then .ok (bookmarkSlug title)
      else .error (.chat (.operationFailedError "Failed to create bookmark"
        (some result))))⟩

/-- Modelled from the spec: HTML-entity decoding on a character list,
restricted to the four basic named entities. -/
def unescapeChars : List Char → List Char
  | '&' :: 'a' :: 'm' :: 'p' :: ';' :: rest => '&' :: unescapeChars rest
  | '&' :: 'l' :: 't' :: ';' :: rest => '<' :: unescapeChars rest
  | '&' :: 'g' :: 't' :: ';' :: rest => '>' :: unescapeChars rest
  | '&' :: 'q' :: 'u' :: 'o' :: 't' :: ';' :: rest => '"' :: unescapeChars rest
  | c :: rest => c :: unescapeChars rest
  | [] => []

/-- Modelled from the spec: HTML-entity decoding of message `content`
(`html.unescape` restricted to the four basic named entities).  The source
contains no such decoding; this definition exists only to compare the
spec's description of `content` against the code's behaviour. -/
def specHtmlUnescape (s : String) : String :=
  String.mk (unescapeChars s.data)

/-! ### Shared concrete data -/

/-- A well-formed `MessagePosted` payload. -/
def samplePosted : Payload :=
  [("id", .int 11), ("event_type", .int 1), ("room_id", .int 1),
   ("room_name", .str "Sandbox"), ("message_id", .int 100),
   ("user_id", .int 7), ("user_name", .str "alice"),
   ("content", .str "hi")]

/-- A second well-formed `MessagePosted` payload. -/
def samplePosted2 : Payload :=
  [("id", .int 12), ("event_type", .int 1), ("room_id", .int 1),
   ("room_name", .str "Sandbox"), ("message_id", .int 101),
   ("user_id", .int 7), ("user_name", .str "alice"),
   ("content", .str "bye")]

/-- A well-formed `UserMentioned` payload. -/
def sampleMention : Payload :=
  [("id", .int 13), ("event_type", .int 8), ("room_id", .int 1),
   ("room_name", .str "Sandbox"), ("message_id", .int 102),
   ("user_id", .int 7), ("user_name", .str "alice"),
   ("content", .str "@bot hi")]

/-- A payload carrying the recognized tag `MessagePosted = 1` but failing
schema validation: the required `id` field is missing, so the `UnknownEvent`
member of the union fails as well and `validate_python` raises. -/
def badRecognized : Payload :=
  [("event_type", .int 1), ("room_id", .int 1)]

/-- The decoding of `samplePosted`. -/
def samplePostedEvent : DecodedEvent :=
  .messageEvent ⟨11, 1, "Sandbox", 100, 7, "alice", none, none, none, 0, 0, 0⟩ "hi"

/-- The decoding of `samplePosted2`. -/
def samplePosted2Event : DecodedEvent :=
  .messageEvent ⟨12, 1, "Sandbox", 101, 7, "alice", none, none, none, 0, 0, 0⟩ "bye"

/-- The decoding of `sampleMention`. -/
def sampleMentionEvent : DecodedEvent :=
  .mentionEvent ⟨13, 1, "Sandbox", 102, 7, "alice", none, none, none, 0, 0, 0⟩ "@bot hi"

/-- An acknowledgment gateway call that always succeeds. -/
def ackOk : Int → Except ChatError String := fun _ => .ok ""

/-- An acknowledgment gateway call that fails with the `OperationFailedError`
`Room._request` raises on a 500 response. -/
def ackFail : Int → Except ChatError String := fun _ =>
  .error (.operationFailedError (nonOkMessage 500 "Internal Server Error")
    (some (.str "oops")))

/-! ### Helper lemmas -/

/-- A required `str` field validates only against a string value. -/
theorem vStr_eq_some (o : Option JVal) (s : String) (h : vStr o = some s) :
    o = some (.str s) := by
  cases o with
  | none => simp [vStr] at h
  | some v => cases v <;> simp_all [vStr]

/-- The `content` carried by a decoded event, for the four content-bearing
variants. -/
def contentOf : DecodedEvent → Option String
  | .messageEvent _ c => some c
  | .editEvent _ c => some c
  | .mentionEvent _ c => some c
  | .replyEvent _ c => some c
  | _ => none

/-- A successful `validateKnown` whose result carries a `content` string read
that string verbatim from the payload's `content` field. -/
theorem validateKnown_content (t : Int) (p : Payload) (e : DecodedEvent)
    (c : String) (h : validateKnown t p = some e) (hc : contentOf e = some c) :
    getField p "content" = some (.str c) := by
  unfold validateKnown at h
  repeat' split at h
  all_goals
    first
      | (injection h with h
         subst h
         simp only [contentOf, Option.some.injEq] at hc
         subst hc
         exact vStr_eq_some _ _ (by assumption))
      | (injection h with h
         subst h
         simp [contentOf] at hc)
      | simp at h

/-- A successful `validateUnknown` yields an `unknownEvent`, which carries no
`content`. -/
theorem validateUnknown_content (p : Payload) (e : DecodedEvent)
    (h : validateUnknown p = some e) : contentOf e = none := by
  unfold validateUnknown at h
  repeat' split at h
  all_goals first
    | (injection h with h; subst h; rfl)
    | simp at h

/-! ### C1: decoding of unrecognized `event_type` values -/

/-- C1 (counterexample): the claim says every payload whose integer
`event_type` is not one of the five recognized tags decodes to an
`UnknownEvent` and never raises.  The payload `{"id": 1, "event_type": 99}`
has an unrecognized tag, yet `EventAdapter.validate_python` raises a
`ValidationError`: `99` is not a member of the `EventType` enum, so the
`UnknownEvent` member of the union fails too. -/
theorem C1_counterexample :
    validatePython [("id", JVal.int 1), ("event_type", JVal.int 99)] =
      .error ⟨[("id", JVal.int 1), ("event_type", JVal.int 99)]⟩ ∧
    recognizedTags.contains 99 = false :=
  ⟨rfl, by decide⟩

/-- C1 (amended): for every payload whose integer `event_type` is a member of
the `EventType` enum but not one of the five recognized tags, and whose `id`
is an integer, `EventAdapter.validate_python` returns an `UnknownEvent`
preserving `id`, `event_type`, and every other original field verbatim;
unrecognized tags outside the enum (or an invalid `id`) instead raise a
`ValidationError`. -/
theorem C1_unknown_event (p : Payload) (t i : Int)
    (het : getField p "event_type" = some (.int t))
    (hmem : eventTypeValues.contains t = true)
    (hrec : recognizedTags.contains t = false)
    (hid : getField p "id" = some (.int i)) :
    validatePython p = .ok (.unknownEvent i t
      (p.filter (fun kv => !(kv.fst == "id") && !(kv.fst == "event_type")))) := by
  have hrec' : t ∉ recognizedTags := by simpa using hrec
  have hmem' : t ∈ eventTypeValues := by simpa using hmem
  unfold validatePython taggedValidate validateUnknown
  rw [het, hid]
  simp [vInt, hrec', hmem']

/-- C1 (witness): a `UserEntered` payload (tag 3, in the enum, not
recognized) decodes to an `UnknownEvent` keeping the extra field. -/
theorem C1_unknown_event_witness :
    validatePython
      [("id", JVal.int 2), ("event_type", JVal.int 3), ("user_name", JVal.str "alice")] =
      .ok (.unknownEvent 2 3 [("user_name", JVal.str "alice")]) :=
  C1_unknown_event
    [("id", JVal.int 2), ("event_type", JVal.int 3), ("user_name", JVal.str "alice")]
    3 2 rfl (by decide) (by decide) rfl

/-! ### C8: socket-URL acquisition failures -/

/-- C8 (counterexample): the claim says a transient connection error during
socket-URL acquisition is retried after a short delay and never propagates.
In the code, `Room._socket_urls` has no handler and no delay: the error
escapes the generator at once. -/
theorem C8_counterexample :
    socketUrls [(5, FetchOutcome.connError)] =
      .error SocketUrlError.clientConnectionError := rfl

/-- C8 (amended): a failure of the socket-URL acquisition POST — a transient
connection error (or a non-2xx status, via `raise_for_status`) — is not
retried and is not delayed: it raises out of `Room._socket_urls` immediately
and propagates to the consumer of `Room.events()`, which iterates the
generator with no surrounding handler. -/
theorem C8_fetch_failure_propagates (pre : List (Nat × FetchOutcome))
    (now : Nat) (rest : List (Nat × FetchOutcome))
    (hpre : ∀ x ∈ pre, ∃ u, socketUrlFetch x.fst x.snd = Except.ok u) :
    socketUrls (pre ++ (now, FetchOutcome.connError) :: rest) =
      .error SocketUrlError.clientConnectionError := by
  induction pre with
  | nil => rfl
  | cons x xs ih =>
    obtain ⟨a, b⟩ := x
    obtain ⟨u, hu⟩ := hpre (a, b) (List.mem_cons_self _ xs)
    have hrest := ih (fun y hy => hpre y (List.mem_cons_of_mem _ hy))
    simp only [List.cons_append, socketUrls, List.append_eq]
    rw [hu, hrest]

/-- C8 (witness): one successful fetch followed by a connection error. -/
theorem C8_fetch_failure_propagates_witness :
    socketUrls [(1, FetchOutcome.response 200 "wss://chat"),
                (2, FetchOutcome.connError)] =
      .error SocketUrlError.clientConnectionError :=
  C8_fetch_failure_propagates [(1, FetchOutcome.response 200 "wss://chat")] 2 []
    (by
      intro x hx
      rw [List.mem_singleton] at hx
      subst hx
      exact ⟨"wss://chat?l=1", rfl⟩)

/-! ### C9: message `content` and HTML entities -/

/-- A well-formed `MessagePosted` payload whose `content` holds an HTML
entity. -/
def escapedPosted : Payload :=
  [("id", .int 14), ("event_type", .int 1), ("room_id", .int 1),
   ("room_name", .str "Sandbox"), ("message_id", .int 103),
   ("user_id", .int 7), ("user_name", .str "alice"),
   ("content", .str "a &amp; b")]

/-- C9 (counterexample): the claim says the `content` of a decoded
message-content event equals the payload's content with HTML entities
decoded.  Decoding a payload whose content is `"a &amp; b"` yields the event
with content `"a &amp; b"` verbatim, while entity decoding would yield
`"a & b"` — the code performs no unescaping. -/
theorem C9_counterexample :
    validatePython escapedPosted =
      .ok (.messageEvent
        ⟨14, 1, "Sandbox", 103, 7, "alice", none, none, none, 0, 0, 0⟩
        "a &amp; b") ∧
    specHtmlUnescape "a &amp; b" = "a & b" ∧
    ("a &amp; b" : String) ≠ "a & b" :=
  ⟨rfl, rfl, by decide⟩

/-- C9 (amended): for every successfully decoded message-content variant
(Posted, Edited, Mentioned, RepliedTo), the `content` field of the returned
event equals the payload's `content` string verbatim — no HTML-entity
decoding is performed. -/
theorem C9_content_verbatim (p : Payload) (e : DecodedEvent) (c : String)
    (hval : validatePython p = .ok e) (hc : contentOf e = some c) :
    getField p "content" = some (.str c) := by
  unfold validatePython at hval
  cases htag : taggedValidate p with
  | some e0 =>
    rw [htag] at hval
    injection hval with hval
    subst hval
    unfold taggedValidate at htag
    repeat' split at htag
    · exact validateKnown_content _ _ _ _ htag hc
    all_goals simp at htag
  | none =>
    rw [htag] at hval
    cases hu : validateUnknown p with
    | some e0 =>
      rw [hu] at hval
      injection hval with hval
      subst hval
      rw [validateUnknown_content p _ hu] at hc
      cases hc
    | none => rw [hu] at hval; cases hval

/-- C9 (witness): decoding `samplePosted` keeps its content `"hi"`, which is
indeed the payload's `content` field. -/
theorem C9_content_verbatim_witness :
    getField samplePosted "content" = some (JVal.str "hi") :=
  C9_content_verbatim samplePosted samplePostedEvent "hi" rfl rfl

/-! ### C2: one malformed event in a batch -/

/-- C2 (counterexample): the claim says a batch with one malformed
recognized-tag event and two well-formed events yields exactly two delivered
events and one logged failure.  In the code, the dispatcher annotates the
`ValidationError` and re-raises it: the batch `[malformed, good, good]`
yields zero delivered events and the error escapes the generator. -/
theorem C2_counterexample :
    processBatch ackOk [badRecognized, samplePosted, samplePosted2] =
      ([], some (.validationError badRecognized)) ∧
    (processBatch ackOk [badRecognized, samplePosted, samplePosted2]).fst.length ≠ 2 ∧
    getField badRecognized "event_type" = some (JVal.int 1) ∧
    recognizedTags.contains 1 = true :=
  ⟨rfl, by decide, rfl, by decide⟩

/-- C2 (amended): when an event of a batch fails schema validation, the
dispatcher in `Room.events` attaches the offending payload to the
`ValidationError` and re-raises it: the well-formed events preceding the
malformed one are delivered, and the malformed event and every later
sibling in the batch are dropped. -/
theorem C2_validation_failure_aborts (ack : Int → Except ChatError String)
    (pre post : List Payload) (bad : Payload)
    (hpre : ∀ p ∈ pre, ∃ e, validatePython p = .ok e ∧ ackTarget e = none)
    (hbad : ∃ err, validatePython bad = .error err) :
    processBatch ack (pre ++ bad :: post) =
      (pre.filterMap (fun p => (validatePython p).toOption),
       some (.validationError bad)) := by
  induction pre with
  | nil =>
    obtain ⟨err, herr⟩ := hbad
    simp [processBatch, herr]
  | cons q qs ih =>
    obtain ⟨e, he, hack⟩ := hpre q (List.mem_cons_self _ _)
    have ih' := ih (fun y hy => hpre y (List.mem_cons_of_mem _ hy))
    simp [processBatch, he, hack, ih', Except.toOption]

/-- C2 (witness): a batch of one well-formed event, then the malformed one,
then another well-formed event delivers only the first event before the
error is re-raised. -/
theorem C2_validation_failure_aborts_witness :
    processBatch ackOk [samplePosted, badRecognized, samplePosted2] =
      ([samplePostedEvent], some (.validationError badRecognized)) := by
  have h := C2_validation_failure_aborts ackOk [samplePosted] [samplePosted2]
    badRecognized
    (by
      intro p hp
      rw [List.mem_singleton] at hp
      subst hp
      exact ⟨samplePostedEvent, rfl, rfl⟩)
    ⟨⟨badRecognized⟩, rfl⟩
  simpa using h

/-! ### C6: acknowledgment failures -/

/-- C6 (counterexample): the claim says an acknowledgment failure is
swallowed and never aborts delivery.  In the code the ack `_request` is
awaited with no handler: when it raises, neither the mention event itself
nor its well-formed sibling is delivered. -/
theorem C6_counterexample :
    processBatch ackFail [sampleMention, samplePosted] =
      ([], some (.ackError (.operationFailedError
        (nonOkMessage 500 "Internal Server Error") (some (.str "oops"))))) := rfl

/-- C6 (amended): for a decoded Mention or Reply event the dispatcher awaits
the acknowledgment call inline, with no exception handler: an
`OperationFailedError` raised by that call propagates out of `Room.events`,
aborting delivery of that event and of every remaining event in the batch.
(Rate-limit responses to the ack are retried inside the gateway and do not
surface.) -/
theorem C6_ack_failure_aborts (ack : Int → Except ChatError String)
    (p : Payload) (rest : List Payload) (e : DecodedEvent) (m : Int)
    (err : ChatError)
    (hval : validatePython p = .ok e)
    (hack : ackTarget e = some m)
    (hfail : ack m = .error err) :
    processBatch ack (p :: rest) = ([], some (.ackError err)) := by
  simp [processBatch, hval, hack, hfail]

/-- C6 (witness): a failing ack on a mention event aborts the batch. -/
theorem C6_ack_failure_aborts_witness :
    processBatch ackFail [sampleMention, samplePosted2] =
      ([], some (.ackError (.operationFailedError
        (nonOkMessage 500 "Internal Server Error") (some (.str "oops"))))) :=
  C6_ack_failure_aborts ackFail sampleMention [samplePosted2] sampleMentionEvent
    102 (.operationFailedError (nonOkMessage 500 "Internal Server Error")
      (some (.str "oops"))) rfl rfl rfl

/-! ### C3: 409 with a parsed delay -/

/-- C3: whenever the server answers 409 with a body matching
`BACKOFF_RESPONSE`, the gateway sleeps exactly the parsed number of seconds
(no jitter, no extra backoff) and retries the identical request (same
endpoint, same form), with no bound on the number of retries; the body of
the first 200 response is returned to the caller. -/
theorem C3_ratelimit_retry (fkey url : String) (data : List (String × String))
    (limited : List HttpResponse) (good : HttpResponse) (rest : List HttpResponse)
    (hlim : ∀ r ∈ limited, r.status = 409 ∧ ∃ n, parseBackoff r.body = some n)
    (hok : good.status = 200) :
    request fkey url data (limited ++ good :: rest) =
      ⟨List.replicate (limited.length + 1) (url, mergeFkey data fkey),
       limited.filterMap (fun r => parseBackoff r.body),
       some (.ok good.body)⟩ := by
  unfold request
  induction limited with
  | nil => simp [requestLoop, requestOnce, hok, List.replicate]
  | cons r rs ih =>
    obtain ⟨h409, n, hn⟩ := hlim r (List.mem_cons_self _ _)
    have ih' := ih (fun y hy => hlim y (List.mem_cons_of_mem _ hy))
    simp [requestLoop, requestOnce, h409, hn, ih', List.replicate_succ]

/-- C3 (witness): one rate-limited answer with a 5-second delay, then a 200:
two identical POSTs are issued, the single sleep is 5 seconds, and the
caller receives the 200 body. -/
theorem C3_ratelimit_retry_witness :
    request "F" "/u" [("text", "hi")]
      [⟨409, "Conflict", "You can perform this action again in 5 seconds."⟩,
       ⟨200, "OK", "done"⟩] =
      ⟨[("/u", [("text", "hi"), ("fkey", "F")]),
        ("/u", [("text", "hi"), ("fkey", "F")])],
       [5], some (.ok "done")⟩ := by
  have h := C3_ratelimit_retry "F" "/u" [("text", "hi")]
    [⟨409, "Conflict", "You can perform this action again in 5 seconds."⟩]
    ⟨200, "OK", "done"⟩ []
    (by
      intro r hr
      rw [List.mem_singleton] at hr
      subst hr
      exact ⟨rfl, 5, rfl⟩)
    rfl
  simpa using h

/-! ### C4: 409 with an unparseable body -/

/-- C4: a 409 response whose body does not match `BACKOFF_RESPONSE` does not
fail the call: the gateway sleeps the default 1 second and retries, the
call's final outcome being determined by the remaining responses. -/
theorem C4_default_backoff (fkey url : String) (data : List (String × String))
    (r : HttpResponse) (rest : List HttpResponse)
    (h409 : r.status = 409) (hbody : parseBackoff r.body = none) :
    request fkey url data (r :: rest) =
      ⟨(url, mergeFkey data fkey) :: (request fkey url data rest).issued,
       1 :: (request fkey url data rest).sleeps,
       (request fkey url data rest).outcome⟩ := by
  unfold request
  simp [requestLoop, requestOnce, h409, hbody]

/-- C4 (witness): a malformed 409 body backs off 1 second, retries, and the
retried 200 is returned. -/
theorem C4_default_backoff_witness :
    request "F" "/u" [] [⟨409, "Conflict", "garbled"⟩, ⟨200, "OK", "done"⟩] =
      ⟨[("/u", [("fkey", "F")]), ("/u", [("fkey", "F")])], [1],
       some (.ok "done")⟩ := by
  have h := C4_default_backoff "F" "/u" [] ⟨409, "Conflict", "garbled"⟩
    [⟨200, "OK", "done"⟩] rfl rfl
  simpa using h

/-! ### C5: non-200/409 statuses; rate limits never surface -/

/-- C5: a response whose status is neither 200 nor 409 terminates the call
at once (single POST, no sleep, no retry) with an `OperationFailedError`
carrying the status (in its message) and the response body; and no outcome
of the gateway, over any response trace, is ever a surfaced
`RatelimitError`. -/
theorem C5_non_ok_terminal (fkey url : String) (data : List (String × String))
    (r : HttpResponse) (rest : List HttpResponse)
    (h200 : r.status ≠ 200) (h409 : r.status ≠ 409) :
    request fkey url data (r :: rest) =
      ⟨[(url, mergeFkey data fkey)], [],
       some (.error (.operationFailedError (nonOkMessage r.status r.reason)
         (some (.str r.body))))⟩ ∧
    ∀ (trace : List HttpResponse) (n : Nat),
      (request fkey url data trace).outcome ≠
        some (.error (.ratelimitError n)) := by
  constructor
  · unfold request
    simp [requestLoop, requestOnce, h200, h409]
  · intro trace n
    unfold request
    induction trace with
    | nil => simp [requestLoop]
    | cons q qs ih =>
      simp only [requestLoop]
      cases hro : requestOnce q with
      | ok s => simp [hro]
      | error e =>
        cases e with
        | ratelimitError m => simpa [hro] using ih
        | operationFailedError msg pl => simp [hro]

/-- C5 (witness): a 500 response fails the call immediately with
`OperationFailedError`, and a 409 trace does not surface a
`RatelimitError`. -/
theorem C5_non_ok_terminal_witness :
    request "F" "/u" [] [⟨500, "Server Error", "boom"⟩] =
      ⟨[("/u", [("fkey", "F")])], [],
       some (.error (.operationFailedError
         "Got non-ok status code 500 (Server Error)" (some (.str "boom"))))⟩ ∧
    (request "F" "/u" [] [⟨409, "Conflict", "garbled"⟩]).outcome ≠
      some (.error (.ratelimitError 1)) :=
  ⟨(C5_non_ok_terminal "F" "/u" [] ⟨500, "Server Error", "boom"⟩ []
      (by decide) (by decide)).1,
   (C5_non_ok_terminal "F" "/u" [] ⟨500, "Server Error", "boom"⟩ []
      (by decide) (by decide)).2 [⟨409, "Conflict", "garbled"⟩] 1⟩

/-! ### C7: `Room.send` -/

/-- C7: `send("")` raises `ValueError` before any request is issued (no POST,
no sleep); and for a non-empty message whose request succeeds with a JSON
object carrying an integer `id`, `send` returns that id unchanged. -/
theorem C7_send (fkey : String) (room_id : Int) (reply_to : Option Int)
    (parse : String → Option JVal) (trace : List HttpResponse)
    (message : String) (fields : List (String × JVal)) (n : Int)
    (hmsg : message.length ≠ 0)
    (hout : (jsonRequest fkey ("/chats/" ++ toString room_id ++ "/messages/new")
      [("text", message)] parse trace).outcome = some (.ok (.obj fields)))
    (hid : getField fields "id" = some (.int n)) :
    send fkey room_id "" reply_to parse trace =
      ⟨[], [], some (.error (.valueError "Cannot send an empty message!"))⟩ ∧
    (send fkey room_id message none parse trace).outcome =
      some (.ok (.int n)) := by
  constructor
  · rfl
  · simp [send, hmsg, hout, hid]

/-- C7 (witness): `send("")` makes no call; `send("hello")` returns the
server's id 42. -/
theorem C7_send_witness :
    send "F" 1 "" none (fun _ => some (.obj [("id", JVal.int 42)]))
      [⟨200, "OK", "resp"⟩] =
      ⟨[], [], some (.error (.valueError "Cannot send an empty message!"))⟩ ∧
    (send "F" 1 "hello" none (fun _ => some (.obj [("id", JVal.int 42)]))
      [⟨200, "OK", "resp"⟩]).outcome = some (.ok (.int 42)) :=
  C7_send "F" 1 none (fun _ => some (.obj [("id", JVal.int 42)]))
    [⟨200, "OK", "resp"⟩] "hello" [("id", JVal.int 42)] 42 (by decide) rfl rfl

/-! ### C10: the bookmark slug -/

/-- C10: on every successful bookmark call the returned slug is the title
lowercased, spaces replaced by dashes, and then filtered to its alphanumeric
characters — so the dashes just substituted are filtered out again and the
slug contains no dash, no space, and no other non-alphanumeric character. -/
theorem C10_bookmark_slug (fkey : String) (room_id sm em : Int) (title : String)
    (parse : String → Option JVal) (trace : List HttpResponse) (slug : String)
    (hok : (bookmark fkey room_id sm em title parse trace).outcome =
      some (.ok slug)) :
    slug = String.mk (((title.data.map pyLower).map
        (fun c => if c = ' ' then '-' else c)).filter pyIsAlnum) ∧
    ∀ c ∈ slug.data, pyIsAlnum c = true ∧ c ≠ '-' ∧ c ≠ ' ' := by
  have hslug : slug = bookmarkSlug title := by
    simp only [bookmark] at hok
    rw [Option.map_eq_some'] at hok
    obtain ⟨out, hout, hf⟩ := hok
    cases out with
    | error e => cases hf
    | ok result =>
      by_cases hb : bookmarkOk result
      · simp only [hb, if_true] at hf
        injection hf with hf
        exact hf.symm
      · simp only [hb, if_false] at hf
        cases hf
  constructor
  · rw [hslug]; rfl
  · intro c hc
    rw [hslug] at hc
    have hmem : pyIsAlnum c = true :=
      (List.mem_filter.mp (hc : c ∈ ((title.data.map pyLower).map
        (fun c => if c = ' ' then '-' else c)).filter pyIsAlnum)).2
    refine ⟨hmem, ?_, ?_⟩
    · rintro rfl; exact absurd hmem (by decide)
    · rintro rfl; exact absurd hmem (by decide)

/-- C10 (witness): the title `"My Cool Title!"` produces the slug
`"mycooltitle"`, and its first character is alphanumeric and is neither a
dash nor a space. -/
theorem C10_bookmark_slug_witness :
    ("mycooltitle" : String) = String.mk ((("My Cool Title!".data.map pyLower).map
      (fun c => if c = ' ' then '-' else c)).filter pyIsAlnum) ∧
    (pyIsAlnum 'm' = true ∧ 'm' ≠ '-' ∧ 'm' ≠ ' ') :=
  ⟨(C10_bookmark_slug "F" 1 10 20 "My Cool Title!"
      (fun _ => some (.obj [("ok", JVal.bool true)])) [⟨200, "OK", "resp"⟩]
      "mycooltitle" rfl).1,
   (C10_bookmark_slug "F" 1 10 20 "My Cool Title!"
      (fun _ => some (.obj [("ok", JVal.bool true)])) [⟨200, "OK", "resp"⟩]
      "mycooltitle" rfl).2 'm' (by decide)⟩

end Sechat
